import Mathlib

/-
Verification development for the renogy-ha-addon polling engine.

Shallow embedding of:
  src/renogy_bt/renogy/renogybt/BaseClient.py   (section poll state machine)
  src/renogy/renogybt/BatteryClient.py          (battery profile, retry logic)
  src/renogy-bt/renogy/renogybt/BLEManager.py   (connect failure classification)
  src/renogy-bt/renogybt/DeviceManager.py       (MQTT discovery field filter)

Machine integers are Nat/Int with explicit reductions mod 2^w where it
matters; byte strings are `List Nat` (each element a byte value); Python
dicts are association lists with Python's update semantics (existing key
keeps its position, value replaced; new keys appended).
-/

namespace Renogy

set_option maxRecDepth 8192

/-! ## Constants (BaseClient.py lines 16-18, BatteryClient.py lines 15-16) -/

def READ_TIMEOUT : Nat := 15
def READ_SUCCESS : Int := 3
def READ_ERROR : Int := 131
def MAX_BATTERY_ATTEMPTS : Nat := 3
def RETRY_DELAY : Nat := 2

/-! ## Values and snapshots -/

/-- Field values stored in the snapshot dict.  Python floats produced by
scaling (`* 0.1`, `* 0.01`, `* 0.001`) are represented exactly as
`scaled v k` meaning `v * 10^(-k)`; Python `None` is `Value.none`. -/
inductive Value where
  | none
  | s (v : String)
  | n (v : Int)
  | scaled (v : Int) (pow10 : Nat)
  deriving DecidableEq, Repr

/-- A snapshot is a Python dict from field name to value, embedded as an
association list in insertion order. -/
abbrev Snapshot := List (String × Value)

/-- Python `d[k] = v`: replace in place if the key exists (keeping its
position), otherwise append. -/
def updEntry (m : Snapshot) (k : String) (v : Value) : Snapshot :=
  if m.any (fun p => p.1 == k) then
    m.map (fun p => if p.1 == k then (k, v) else p)
  else m ++ [(k, v)]

/-- Python `d.update(upd)`: apply `updEntry` for each pair of `upd` in order. -/
def updMap (m : Snapshot) (upd : Snapshot) : Snapshot :=
  upd.foldl (fun acc p => updEntry acc p.1 p.2) m

/-- Python `d.get(k)` restricted to lookup: first binding of `k`. -/
def lookupMap (m : Snapshot) (k : String) : Option Value :=
  (m.find? (fun p => p.1 == k)).map Prod.snd

/-! ## Byte helpers

`Utils.py` is not among the sources; these helpers are modelled from the
spec (section 4.1), which describes them precisely. -/

/-- Modelled from the spec: `Utils.bytes_to_int` (absent from src/).
Spec 4.1: "values are big-endian unsigned integers of 1, 2, or 4 bytes at
caller-specified offsets, optionally signed (two's complement)".  The
scale multiplier is applied by the callers below via `Value.scaled`. -/
def bytes_to_int (bs : List Nat) (offset size : Nat) (signed : Bool := false) : Int :=
  let chunk := (bs.drop offset).take size
  let u : Nat := chunk.foldl (fun acc b => acc * 256 + b % 256) 0
  if signed && decide (2 ^ (8 * size - 1) ≤ u) then (u : Int) - 2 ^ (8 * size) else (u : Int)

/-- Modelled from the spec: `Utils.int_to_bytes` (absent from src/).
Spec 6 wire format: register address and word count are big-endian, so
index 0 selects the high byte and index 1 the low byte. -/
def int_to_bytes (v : Nat) (idx : Nat) : Nat :=
  if idx = 0 then (v / 256) % 256 else v % 256

/-- One round of the reflected CRC16 algorithm: shift right, xor the
polynomial 0xA001 when the low bit was set. -/
def crc16_round (crc : Nat) : Nat :=
  if crc % 2 = 1 then (crc / 2) ^^^ 0xA001 else crc / 2

/-- Eight rounds for one input byte. -/
def crc16_rounds : Nat → Nat → Nat
  | 0, crc => crc
  | Nat.succ k, crc => crc16_rounds k (crc16_round crc)

/-- Modelled from the spec: `Utils.crc16_modbus` (absent from src/).
Spec 4.1: "the standard Modbus polynomial-based CRC16 (initial value
0xFFFF, polynomial 0xA001, byte-at-a-time reflected algorithm)".
Returns the 16-bit checksum value. -/
def crc16 (bs : List Nat) : Nat :=
  bs.foldl (fun crc b => crc16_rounds 8 (crc ^^^ (b % 256))) 0xFFFF

/-- Modelled from the spec: the two checksum bytes as appended to a frame,
"low byte first" (spec 4.1 and the wire-format table in spec 6). -/
def crc16_modbus (bs : List Nat) : List Nat :=
  [crc16 bs % 256, crc16 bs / 256]

/-- BaseClient.create_generic_read_request (BaseClient.py lines 155-170):
6-byte body [deviceId, function, addrHi, addrLo, wordsHi, wordsLo]
followed by the two CRC bytes `crc[0], crc[1]`. -/
def create_generic_read_request (device_id func regAddr readWrd : Nat) : List Nat :=
  let body := [device_id, func, int_to_bytes regAddr 0, int_to_bytes regAddr 1,
               int_to_bytes readWrd 0, int_to_bytes readWrd 1]
  body ++ crc16_modbus body

/-! ## Sections, client state, events -/

/-- One entry of a client's `sections` list
(`{'register': r, 'words': w, 'parser': f}`).  A parser is embedded as a
function from the full response bytes to the dict of fields it merges
into `self.data` (`Except` carries a raised Python exception: the source
parsers build a local dict and call `self.data.update(data)` last, so a
raising parser merges nothing). -/
structure Section where
  register : Nat
  words : Nat
  parser : Option (List Nat → Except String Snapshot)

/-- The mutable state of one BaseClient/BatteryClient instance that the
claims are about. -/
structure ClientState where
  sections : List Section
  sectionIndex : Nat
  data : Snapshot
  deviceAlias : String
  clientName : String
  pollingEnabled : Bool
  pollInterval : Nat

/-- Observable actions of the state machine, in program order. -/
inductive Event where
  | cancelTimer
  | unknownOp
  | parseOk (idx : Nat)
  | parseFailed (idx : Nat)
  | skipParse (idx : Nat)
  | resetIndex
  | advanceIndex (idx : Nat)
  | pacingSleep
  | deliver (m : Snapshot)
  | callbackFailed
  | clearData
  | armTimer (secs : Nat)
  | issueRead (register words : Nat)
  | sleepSecs (secs : Nat)
  | stop
  | emitError (msg : String)
  | disconnect
  | disconnectErrorIgnored
  | reconnect
  deriving DecidableEq, Repr

/-- BaseClient.on_read_operation_complete (lines 126-130): the two dict
assignments `self.data['__device'] = alias` and
`self.data['__client'] = class name` performed just before the data
callback is invoked with `self.data`. -/
def on_read_operation_complete_data (d : Snapshot) (alias_ cls : String) : Snapshot :=
  updEntry (updEntry d "__device" (Value.s alias_)) "__client" (Value.s cls)

/-- BaseClient.read_section (lines 141-153), connected case: arm the
15-second read timer, then write the encoded request for the current
section.  (The `device_id is None or sections == []` early return and the
not-connected `stop()` branch concern states no claim exercises.) -/
def read_section_events (st : ClientState) : List Event :=
  match st.sections[st.sectionIndex]? with
  | some sec => [Event.armTimer READ_TIMEOUT, Event.issueRead sec.register sec.words]
  | Option.none => []

/-- BaseClient.__safe_callback (lines 202-208): a `None` callback is
skipped; a raising callback is caught and logged (`callbackFailed`),
never propagated. -/
def cbEvents (cb : Option (Snapshot → Except String Unit)) (m : Snapshot) : List Event :=
  match cb with
  | Option.none => []
  | some f =>
    match f m with
    | Except.ok _ => []
    | Except.error _ => [Event.callbackFailed]

/-- BaseClient.check_polling (lines 136-139): when polling is enabled,
sleep for the poll interval and issue the next read (section 0). -/
def pollEvents (st : ClientState) : List Event :=
  if st.pollingEnabled then
    Event.sleepSecs st.pollInterval :: read_section_events { st with sectionIndex := 0 }
  else []

/-- Shared tail of every branch of BaseClient.on_data_received
(lines 92-124): if the current section is the last
(`section_index >= len(sections) - 1`), reset the index to 0, run
on_read_operation_complete (which delivers `self.data` tagged with the
reserved keys), clear `self.data`, then check_polling; otherwise advance
the index, sleep 0.5s and issue the next section's read. -/
def completeOrAdvance (st : ClientState) (cb : Option (Snapshot → Except String Unit))
    (pre : List Event) : ClientState × List Event :=
  if st.sections.length - 1 ≤ st.sectionIndex then
    let delivered := on_read_operation_complete_data st.data st.deviceAlias st.clientName
    ({ st with sectionIndex := 0, data := [] },
     pre ++ Event.resetIndex :: Event.deliver delivered ::
       (cbEvents cb delivered ++ (Event.clearData :: pollEvents st)))
  else
    let st' := { st with sectionIndex := st.sectionIndex + 1 }
    (st', pre ++ Event.advanceIndex (st.sectionIndex + 1) :: Event.pacingSleep ::
      read_section_events st')

/-- The parse attempt of BaseClient.on_data_received (lines 80-90): the
parser runs only when the operation byte is READ_SUCCESS, the section
index is in range, the section has a parser, and
`words * 2 + 5 == len(response)`; a raising parser is contained by
__safe_parser (lines 210-216).  Note: no checksum is recomputed here. -/
def odr_parse_step (st : ClientState) (response : List Nat) : Snapshot × List Event :=
  match st.sections[st.sectionIndex]? with
  | some sec =>
    match sec.parser with
    | some p =>
      if bytes_to_int response 1 1 = READ_SUCCESS ∧ sec.words * 2 + 5 = response.length then
        match p response with
        | Except.ok upd => (updMap st.data upd, [Event.parseOk st.sectionIndex])
        | Except.error _ => (st.data, [Event.parseFailed st.sectionIndex])
      else (st.data, [Event.skipParse st.sectionIndex])
    | Option.none => (st.data, [Event.skipParse st.sectionIndex])
  | Option.none => (st.data, [Event.skipParse st.sectionIndex])

/-- BaseClient.on_data_received (lines 73-124).  The pending read timer is
cancelled first.  When the operation byte is READ_SUCCESS or READ_ERROR
the parse attempt runs and then the shared complete-or-advance tail; for
an unknown operation only a warning is logged before the same tail.
(The `except` branch, lines 113-124, repeats the tail verbatim and is
subsumed by it.) -/
def on_data_received (cb : Option (Snapshot → Except String Unit))
    (st : ClientState) (response : List Nat) : ClientState × List Event :=
  let operation := bytes_to_int response 1 1
  if operation = READ_SUCCESS ∨ operation = READ_ERROR then
    let pr := odr_parse_step st response
    completeOrAdvance { st with data := pr.1 } cb (Event.cancelTimer :: pr.2)
  else
    completeOrAdvance st cb [Event.cancelTimer, Event.unknownOp]

/-- Feed a list of notification payloads to the handler in order,
accumulating the event trace (the transport delivers one notification per
outstanding request). -/
def runResponses (cb : Option (Snapshot → Except String Unit))
    (st : ClientState) : List (List Nat) → ClientState × List Event
  | [] => (st, [])
  | r :: rest =>
    let step := on_data_received cb st r
    let more := runResponses cb step.1 rest
    (more.1, step.2 ++ more.2)

/-- Projection of a trace to the parser invocations it contains (both a
normally returning and a raising parser count as an invocation). -/
def parseCalls (tr : List Event) : List Nat :=
  tr.filterMap (fun e =>
    match e with
    | Event.parseOk i => some i
    | Event.parseFailed i => some i
    | _ => Option.none)

/-- Projection of a trace to the snapshots delivered to the data callback. -/
def delivers (tr : List Event) : List Snapshot :=
  tr.filterMap (fun e =>
    match e with
    | Event.deliver m => some m
    | _ => Option.none)

/-! ## Battery profile (BatteryClient.py) -/

/-- The FUNCTION dict lookup `FUNCTION.get(code)` (BatteryClient.py
lines 9-12): `None` for unknown codes. -/
def FUNCTION_get (code : Int) : Value :=
  if code = 3 then Value.s "READ" else if code = 6 then Value.s "WRITE" else Value.none

/-- Modelled from the spec: `Utils.format_temperature` (absent from src/).
The spec never describes the unit conversion and no claim inspects a
temperature value, so the Celsius reading is passed through unchanged
(scenarios below fix the configured unit to "C"). -/
def format_temperature (celsius : Value) (_unit : String) : Value := celsius

/-- BatteryClient.parse_cell_volt_info (lines 91-97). -/
def parse_cell_volt_info (bs : List Nat) : Except String Snapshot :=
  let cellCount := bytes_to_int bs 3 2
  Except.ok
    (("function", FUNCTION_get (bytes_to_int bs 1 1)) ::
     ("cell_count", Value.n cellCount) ::
     (List.range cellCount.toNat).map
       (fun i => (s!"cell_voltage_{i}", Value.scaled (bytes_to_int bs (5 + i * 2) 2) 1)))

/-- BatteryClient.parse_cell_temp_info (lines 99-106). -/
def parse_cell_temp_info (unit : String) (bs : List Nat) : Except String Snapshot :=
  let sensorCount := bytes_to_int bs 3 2
  Except.ok
    (("function", FUNCTION_get (bytes_to_int bs 1 1)) ::
     ("sensor_count", Value.n sensorCount) ::
     (List.range sensorCount.toNat).map
       (fun i => (s!"temperature_{i}",
         format_temperature (Value.scaled (bytes_to_int bs (5 + i * 2) 2 true) 1) unit)))

/-- BatteryClient.parse_battery_info (lines 108-115). -/
def parse_battery_info (bs : List Nat) : Except String Snapshot :=
  Except.ok
    [("function", FUNCTION_get (bytes_to_int bs 1 1)),
     ("current", Value.scaled (bytes_to_int bs 3 2 true) 2),
     ("voltage", Value.scaled (bytes_to_int bs 5 2) 1),
     ("remaining_charge", Value.scaled (bytes_to_int bs 7 4) 3),
     ("capacity", Value.scaled (bytes_to_int bs 11 4) 3)]

/-- Python's `bytes.rstrip(b'\x00')` on a byte list. -/
def rstrip_null (chunk : List Nat) : List Nat :=
  (chunk.reverse.dropWhile (fun b => b = 0)).reverse

/-- BatteryClient.parse_device_info (lines 117-121):
`bs[3:19].decode('utf-8').rstrip('\x00')`.  A byte outside the ASCII
range is modelled as a UnicodeDecodeError; the true decoder also accepts
valid multi-byte sequences, which no device model string and no claim
exercises. -/
def parse_device_info (bs : List Nat) : Except String Snapshot :=
  let chunk := (bs.drop 3).take 16
  if chunk.all (fun b => b < 128) then
    Except.ok
      [("function", FUNCTION_get (bytes_to_int bs 1 1)),
       ("model", Value.s (String.mk ((rstrip_null chunk).map Char.ofNat)))]
  else Except.error "UnicodeDecodeError"

/-- BatteryClient.parse_device_address (lines 123-126). -/
def parse_device_address (bs : List Nat) : Except String Snapshot :=
  Except.ok [("device_id", Value.n (bytes_to_int bs 3 2))]

/-- BatteryClient.__init__ sections list (lines 25-31), parameterised by
the configured temperature unit. -/
def batterySections (unit : String) : List Section :=
  [⟨5000, 17, some parse_cell_volt_info⟩,
   ⟨5017, 17, some (parse_cell_temp_info unit)⟩,
   ⟨5042, 6, some parse_battery_info⟩,
   ⟨5122, 8, some parse_device_info⟩,
   ⟨5223, 1, some parse_device_address⟩]

/-- A freshly started BatteryClient at section 0 with empty data
(unit "C", polling disabled, 10-second interval as in the test config). -/
def battSt : ClientState :=
  ⟨batterySections "C", 0, [], "batt1", "BatteryClient", false, 10⟩

/-! ## Timeout and connect-failure handling -/

/-- BaseClient.on_read_timeout (lines 132-134): log an error and
`self.stop()` — no disconnect/reconnect/re-issue. -/
def on_read_timeout_events : List Event := [Event.stop]

/-- Substring test over characters (needle occurs contiguously in hay). -/
def charsPrefix : List Char → List Char → Bool
  | [], _ => true
  | _ :: _, [] => false
  | a :: as, b :: bs => a == b && charsPrefix as bs

def charsContains (needle : List Char) : List Char → Bool
  | [] => needle.isEmpty
  | b :: bs => charsPrefix needle (b :: bs) || charsContains needle bs

/-- Python `needle in hay` on strings. -/
def containsSub (needle hay : String) : Bool :=
  charsContains needle.toList hay.toList

/-- Python `s.startswith(pre)` on strings. -/
def py_startswith (s pre : String) : Bool :=
  charsPrefix pre.toList s.toList

/-- BaseClient.__on_connect_fail (lines 177-190), the classification
guard: `"BleakDBusError" in error_str and "Operation is not supported" in
error_str`. -/
def unsupported_signal (t : String) : Bool :=
  containsSub "BleakDBusError" t && containsSub "Operation is not supported" t

/-- BaseClient.__on_connect_fail (lines 177-190): the non-fatal signal
returns without emitting anything; every other error invokes the error
callback and then `self.stop()`. -/
def on_connect_fail_events (t : String) : List Event :=
  if unsupported_signal t then [] else [Event.emitError t, Event.stop]

/-! ## Start/retry logic (BatteryClient.start, BaseClient.start) -/

/-- Outcome of one `BaseClient.start()` call as driven by the transport:
the device is found and connects, is not discoverable, or
`client.connect()` raises and BLEManager's generic handler invokes
`__on_connect_fail` with the error text. -/
inductive ConnectOutcome where
  | success
  | notFound
  | raiseErr (errText : String)

/-- What one `BaseClient.start()` call observably does (lines 34-46
together with connect, lines 48-60).  Every modelled outcome is absorbed
inside start — the exception raised by the transport is caught by
BLEManager.connect (BLEManager.py lines 93-95) and routed to
`__on_connect_fail`, so start itself never raises (`raised = false`). -/
structure StartResult where
  raised : Bool
  errorsEmitted : Nat
  stopped : Bool
  deriving DecidableEq, Repr

def isEmitError : Event → Bool
  | Event.emitError _ => true
  | _ => false

def base_start_result (o : ConnectOutcome) : StartResult :=
  match o with
  | ConnectOutcome.success => ⟨false, 0, false⟩
  | ConnectOutcome.notFound => ⟨false, 0, true⟩
  | ConnectOutcome.raiseErr t =>
    let evs := on_connect_fail_events t
    ⟨false, (evs.filter isEmitError).length, evs.contains Event.stop⟩

structure BatteryStartResult where
  attempts : Nat
  errorsEmitted : Nat
  deriving DecidableEq, Repr

/-- The `while not success and self.attempt_count < MAX_BATTERY_ATTEMPTS`
loop of BatteryClient.start (lines 39-42); `count` is
`self.attempt_count`, `success` the result of the last `_attempt_start`
(which returns False exactly when `super().start()` raised,
lines 47-56).  The fuel argument only bounds the recursion; the loop
exits by itself once `count` reaches `MAX_BATTERY_ATTEMPTS`. -/
def battery_retry_go (raises : Nat → Bool) (errs : Nat → Nat) :
    Nat → Nat → Bool → Nat → BatteryStartResult
  | count, errAcc, _, 0 => ⟨count, errAcc⟩
  | count, errAcc, success, Nat.succ fuel =>
    if success = false ∧ count < MAX_BATTERY_ATTEMPTS then
      battery_retry_go raises errs (count + 1) (errAcc + errs (count + 1))
        (! raises (count + 1)) fuel
    else ⟨count, errAcc⟩

/-- BatteryClient.start (lines 33-45) over abstract per-attempt behavior:
`raises k` says whether attempt `k`'s `super().start()` raises and
`errs k` how many onError callbacks it emits. -/
def battery_start_generic (raises : Nat → Bool) (errs : Nat → Nat) : BatteryStartResult :=
  battery_retry_go raises errs 1 (errs 1) (! raises 1) MAX_BATTERY_ATTEMPTS

/-- BatteryClient.start composed with the actual behavior of
`BaseClient.start` on each attempt's connect outcome. -/
def battery_start (oc : Nat → ConnectOutcome) : BatteryStartResult :=
  battery_start_generic (fun k => (base_start_result (oc k)).raised)
    (fun k => (base_start_result (oc k)).errorsEmitted)

/-! ## BatteryClient.read_section recovery (BatteryClient.py lines 58-89) -/

/-- BatteryClient.read_section: when `super().read_section()` raises
(`superRaises`), and only then, the except branch runs; on the first
section with budget left it does a best-effort disconnect (a raising
disconnect is swallowed by `except Exception: pass`), sleeps
RETRY_DELAY seconds, reconnects (BaseClient.connect itself issues the
current section's read on success, line 60) and then explicitly calls
`super().read_section()` again; otherwise the exception propagates
(`.2 = true`).  A raising reconnect leads to `self.stop()`. -/
def battery_read_section (superRaises disconnectRaises reconnectRaises : Bool)
    (st : ClientState) (attempt_count : Nat) : List Event × Bool :=
  if superRaises = false then
    (read_section_events st, false)
  else if st.sectionIndex = 0 ∧ attempt_count < MAX_BATTERY_ATTEMPTS then
    let discEv := if disconnectRaises then [Event.disconnectErrorIgnored] else [Event.disconnect]
    let recEv :=
      if reconnectRaises then [Event.stop]
      else Event.reconnect :: (read_section_events st ++ read_section_events st)
    (discEv ++ Event.sleepSecs RETRY_DELAY :: recEv, false)
  else ([], true)

/-! ## Read deadline (BaseClient.read_section / on_data_received / on_read_timeout) -/

inductive Phase where
  | awaitingResponse
  | receivedData
  | stopped
  deriving DecidableEq, Repr

/-- What firing the armed timer does: `on_read_timeout` stops the
session, so the machine leaves AwaitingResponse. -/
def timeout_fire_phase : Phase :=
  if on_read_timeout_events.contains Event.stop then Phase.stopped else Phase.awaitingResponse

structure AwaitResult where
  phase : Phase
  exitTime : Nat
  timerCancelled : Bool
  timerFired : Bool
  deriving DecidableEq, Repr

/-- Discrete model of one await after read_section armed the timer with
`loop.call_later(READ_TIMEOUT, on_read_timeout)` at time `armedAt`: the
event loop delivers whichever is scheduled earlier — the notification (if
one ever arrives, at `notifyAt`), whose handler cancels the pending timer
in its first statement (on_data_received lines 74-75), or the timer
firing at the deadline. -/
def resolveAwait (armedAt : Nat) (notifyAt : Option Nat) : AwaitResult :=
  match notifyAt with
  | some t =>
    if t < armedAt + READ_TIMEOUT then ⟨Phase.receivedData, t, true, false⟩
    else ⟨timeout_fire_phase, armedAt + READ_TIMEOUT, false, true⟩
  | Option.none => ⟨timeout_fire_phase, armedAt + READ_TIMEOUT, false, true⟩

/-! ## MQTT discovery filter (DeviceManager.send_mqtt_discovery, lines 343-357) -/

/-- The per-field skip chain of the discovery loop: fields starting with
"__", fields already sent for the device, and fields with no entity
mapping are skipped; the rest are processed. -/
def send_mqtt_discovery_fields (d : Snapshot) (alreadySent : List String)
    (hasMapping : String → Bool) : List String :=
  (d.map Prod.fst).filter
    (fun f => !(py_startswith f "__") && !(alreadySent.contains f) && hasMapping f)

/-! ## Concrete scenario frames -/

/-- Well-formed section-0 response (register 5000, 17 words, 39 bytes):
two cells at 3.3 V and 3.4 V; the two trailing CRC bytes are left 0. -/
def r1_cellVolt : List Nat :=
  [255, 3, 34, 0, 2, 0, 33, 0, 34] ++ List.replicate 28 0 ++ [0, 0]

/-- Corrupted section-1 response: 38 bytes instead of 17*2+5 = 39. -/
def r2_badLen : List Nat :=
  [255, 3, 34] ++ List.replicate 33 0 ++ [0, 0]

/-- Well-formed section-1 response (register 5017, 17 words, 39 bytes):
one sensor at 25.0 degrees. -/
def r2_cellTemp : List Nat :=
  [255, 3, 34, 0, 1, 0, 250] ++ List.replicate 30 0 ++ [0, 0]

/-- Well-formed section-2 response (register 5042, 6 words, 17 bytes):
current 1.00 A, voltage 13.2 V, remaining charge 10.000 Ah,
capacity 50.000 Ah. -/
def r3_battery : List Nat :=
  [255, 3, 12, 0, 100, 0, 132, 0, 0, 39, 16, 0, 0, 195, 80, 0, 0]

/-- Well-formed section-3 response (register 5122, 8 words, 21 bytes):
model string "RBT100LFP12S" padded with null bytes. -/
def r4_device : List Nat :=
  [255, 3, 16, 82, 66, 84, 49, 48, 48, 76, 70, 80, 49, 50, 83, 0, 0, 0, 0, 0, 0]

/-- Well-formed section-4 response (register 5223, 1 word, 7 bytes):
device id 48; the two trailing CRC bytes are left 0, which does NOT
match the recomputed CRC over the first five bytes. -/
def r5_address : List Nat :=
  [255, 3, 2, 0, 48, 0, 0]

/-- One full battery cycle with the section-1 response corrupted. -/
def c4_responses : List (List Nat) :=
  [r1_cellVolt, r2_badLen, r3_battery, r4_device, r5_address]

/-- One full battery cycle with every response well-formed. -/
def c5_responses : List (List Nat) :=
  [r1_cellVolt, r2_cellTemp, r3_battery, r4_device, r5_address]

/-- The snapshot delivered in the corrupted-cycle scenario. -/
def c4_delivered : Snapshot :=
  (delivers (runResponses Option.none battSt c4_responses).2).headD []

/-- The snapshot delivered in the all-good-cycle scenario. -/
def c5_delivered : Snapshot :=
  (delivers (runResponses Option.none battSt c5_responses).2).headD []

/-- The union of the parser outputs over one cycle (what spec sentence
"union of all N parsers' output fields" denotes), without the reserved
keys added by on_read_operation_complete. -/
def parsersUnion (secs : List Section) (rs : List (List Nat)) : Snapshot :=
  (secs.zip rs).foldl
    (fun acc sr =>
      match sr.1.parser with
      | some p =>
        match p sr.2 with
        | Except.ok u => updMap acc u
        | Except.error _ => acc
      | Option.none => acc) []

/-- A device-info response of correct length whose model bytes contain a
non-ASCII byte (200): its parser raises UnicodeDecodeError. -/
def r4_nonAscii : List Nat :=
  [255, 3, 16, 200] ++ List.replicate 15 0 ++ [0, 0]

/-- The fields parse_cell_volt_info computes from `r1_cellVolt`. -/
def U1 : Snapshot :=
  [("function", Value.s "READ"), ("cell_count", Value.n 2),
   ("cell_voltage_0", Value.scaled 33 1), ("cell_voltage_1", Value.scaled 34 1)]

/-- The fields parse_cell_temp_info computes from `r2_cellTemp`. -/
def U2 : Snapshot :=
  [("function", Value.s "READ"), ("sensor_count", Value.n 1),
   ("temperature_0", Value.scaled 250 1)]

/-- The fields parse_battery_info computes from `r3_battery`. -/
def U3 : Snapshot :=
  [("function", Value.s "READ"), ("current", Value.scaled 100 2),
   ("voltage", Value.scaled 132 1), ("remaining_charge", Value.scaled 10000 3),
   ("capacity", Value.scaled 50000 3)]

/-- The fields parse_device_info computes from `r4_device`. -/
def U4 : Snapshot :=
  [("function", Value.s "READ"), ("model", Value.s "RBT100LFP12S")]

/-- The fields parse_device_address computes from `r5_address`. -/
def U5 : Snapshot :=
  [("device_id", Value.n 48)]

/-- The all-good cycle's responses paired with their parser outputs. -/
def c5_todo : List (List Nat × Snapshot) :=
  [(r1_cellVolt, U1), (r2_cellTemp, U2), (r3_battery, U3), (r4_device, U4), (r5_address, U5)]

def isResetEv : Event → Bool
  | Event.resetIndex => true
  | _ => false

def isDeliverEv : Event → Bool
  | Event.deliver _ => true
  | _ => false

def isClearEv : Event → Bool
  | Event.clearData => true
  | _ => false

/-- Well-formedness of one response paired with the fields its section's
parser produces: operation byte READ_SUCCESS, length `words*2 + 5`, and
the parser returns normally with exactly those fields. -/
def SecOk (sec : Section) (ru : List Nat × Snapshot) : Prop :=
  bytes_to_int ru.1 1 1 = READ_SUCCESS ∧ sec.words * 2 + 5 = ru.1.length ∧
  ∃ p, sec.parser = some p ∧ p ru.1 = Except.ok ru.2

/-- Parser invocations contributed by a single event. -/
def parseCallsE : Event → List Nat
  | Event.parseOk i => [i]
  | Event.parseFailed i => [i]
  | _ => []

/-- Deliveries contributed by a single event. -/
def deliversE : Event → List Snapshot
  | Event.deliver m => [m]
  | _ => []

/-- Replace the current section's parser by one that returns normally
with no fields — "as if the handler had returned normally". -/
def harmlessParserAt (st : ClientState) (sec : Section) : ClientState :=
  let harmless : Section := Section.mk sec.register sec.words (some (fun _ => Except.ok []))
  { st with sections := st.sections.set st.sectionIndex harmless }

/-! ## Helper lemmas -/

theorem updMap_nil (m : Snapshot) : updMap m [] = m := rfl

theorem parseCalls_nil : parseCalls [] = [] := rfl

theorem delivers_nil : delivers [] = [] := rfl

theorem parseCalls_append (a b : List Event) :
    parseCalls (a ++ b) = parseCalls a ++ parseCalls b :=
  List.filterMap_append a b _

theorem delivers_append (a b : List Event) :
    delivers (a ++ b) = delivers a ++ delivers b :=
  List.filterMap_append a b _

theorem parseCalls_read_section_events (st : ClientState) :
    parseCalls (read_section_events st) = [] := by
  unfold read_section_events
  cases st.sections[st.sectionIndex]? <;> simp [parseCalls]

theorem delivers_read_section_events (st : ClientState) :
    delivers (read_section_events st) = [] := by
  unfold read_section_events
  cases st.sections[st.sectionIndex]? <;> simp [delivers]

theorem parseCalls_cbEvents (cb : Option (Snapshot → Except String Unit)) (m : Snapshot) :
    parseCalls (cbEvents cb m) = [] := by
  unfold cbEvents
  cases cb with
  | none => rfl
  | some f => cases hf : f m <;> simp [parseCalls, hf]

theorem delivers_cbEvents (cb : Option (Snapshot → Except String Unit)) (m : Snapshot) :
    delivers (cbEvents cb m) = [] := by
  unfold cbEvents
  cases cb with
  | none => rfl
  | some f => cases hf : f m <;> simp [delivers, hf]

theorem parseCalls_pollEvents (st : ClientState) :
    parseCalls (pollEvents st) = [] := by
  unfold pollEvents
  by_cases h : st.pollingEnabled
  · rw [if_pos h]
    have : Event.sleepSecs st.pollInterval :: read_section_events { st with sectionIndex := 0 } =
        [Event.sleepSecs st.pollInterval] ++ read_section_events { st with sectionIndex := 0 } := rfl
    rw [this, parseCalls_append, parseCalls_read_section_events]
    rfl
  · rw [if_neg h]; rfl

theorem delivers_pollEvents (st : ClientState) :
    delivers (pollEvents st) = [] := by
  unfold pollEvents
  by_cases h : st.pollingEnabled
  · rw [if_pos h]
    have : Event.sleepSecs st.pollInterval :: read_section_events { st with sectionIndex := 0 } =
        [Event.sleepSecs st.pollInterval] ++ read_section_events { st with sectionIndex := 0 } := rfl
    rw [this, delivers_append, delivers_read_section_events]
    rfl
  · rw [if_neg h]; rfl

theorem odr_parse_step_ok {st : ClientState} {r : List Nat} {sec : Section}
    {p : List Nat → Except String Snapshot} {u : Snapshot}
    (hsec : st.sections[st.sectionIndex]? = some sec) (hp : sec.parser = some p)
    (hop : bytes_to_int r 1 1 = READ_SUCCESS) (hlen : sec.words * 2 + 5 = r.length)
    (hres : p r = Except.ok u) :
    odr_parse_step st r = (updMap st.data u, [Event.parseOk st.sectionIndex]) := by
  unfold odr_parse_step
  rw [hsec]
  simp only [hp, hres, if_pos (And.intro hop hlen)]

theorem odr_parse_step_err {st : ClientState} {r : List Nat} {sec : Section}
    {p : List Nat → Except String Snapshot} {e : String}
    (hsec : st.sections[st.sectionIndex]? = some sec) (hp : sec.parser = some p)
    (hop : bytes_to_int r 1 1 = READ_SUCCESS) (hlen : sec.words * 2 + 5 = r.length)
    (hres : p r = Except.error e) :
    odr_parse_step st r = (st.data, [Event.parseFailed st.sectionIndex]) := by
  unfold odr_parse_step
  rw [hsec]
  simp only [hp, hres, if_pos (And.intro hop hlen)]

theorem odr_parse_step_skip_len {st : ClientState} {r : List Nat} {sec : Section}
    (hsec : st.sections[st.sectionIndex]? = some sec)
    (hlen : sec.words * 2 + 5 ≠ r.length) :
    odr_parse_step st r = (st.data, [Event.skipParse st.sectionIndex]) := by
  unfold odr_parse_step
  rw [hsec]
  have hcond : ¬ (bytes_to_int r 1 1 = READ_SUCCESS ∧ sec.words * 2 + 5 = r.length) :=
    fun hc => hlen hc.2
  cases hp : sec.parser with
  | none => simp only [hp]
  | some p => simp only [hp, if_neg hcond]

theorem odr_parse_step_skip_cond {st : ClientState} {r : List Nat} {sec : Section}
    (hsec : st.sections[st.sectionIndex]? = some sec)
    (hc : ¬ (bytes_to_int r 1 1 = READ_SUCCESS ∧ sec.words * 2 + 5 = r.length)) :
    odr_parse_step st r = (st.data, [Event.skipParse st.sectionIndex]) := by
  unfold odr_parse_step
  rw [hsec]
  cases hp : sec.parser with
  | none => simp only [hp]
  | some p => simp only [hp, if_neg hc]

theorem harmless_lookup {st : ClientState} {sec : Section}
    (hsec : st.sections[st.sectionIndex]? = some sec) :
    (harmlessParserAt st sec).sections[(harmlessParserAt st sec).sectionIndex]? =
      some (Section.mk sec.register sec.words (some (fun _ => Except.ok []))) := by
  have hlt : st.sectionIndex < st.sections.length := (List.getElem?_eq_some.mp hsec).1
  unfold harmlessParserAt
  simp [List.getElem?_set, hlt]

theorem harmless_length (st : ClientState) (sec : Section) :
    (harmlessParserAt st sec).sections.length = st.sections.length := by
  unfold harmlessParserAt
  simp

theorem completeOrAdvance_last (st : ClientState)
    (cb : Option (Snapshot → Except String Unit)) (pre : List Event)
    (h : st.sections.length - 1 ≤ st.sectionIndex) :
    completeOrAdvance st cb pre =
      ({ st with sectionIndex := 0, data := [] },
       pre ++ Event.resetIndex ::
         Event.deliver (on_read_operation_complete_data st.data st.deviceAlias st.clientName) ::
         (cbEvents cb (on_read_operation_complete_data st.data st.deviceAlias st.clientName) ++
           (Event.clearData :: pollEvents st))) := by
  unfold completeOrAdvance
  rw [if_pos h]

theorem completeOrAdvance_advance (st : ClientState)
    (cb : Option (Snapshot → Except String Unit)) (pre : List Event)
    (h : ¬ st.sections.length - 1 ≤ st.sectionIndex) :
    completeOrAdvance st cb pre =
      ({ st with sectionIndex := st.sectionIndex + 1 },
       pre ++ Event.advanceIndex (st.sectionIndex + 1) :: Event.pacingSleep ::
         read_section_events { st with sectionIndex := st.sectionIndex + 1 }) := by
  unfold completeOrAdvance
  rw [if_neg h]

theorem on_data_received_op (cb : Option (Snapshot → Except String Unit))
    (st : ClientState) (r : List Nat)
    (h : bytes_to_int r 1 1 = READ_SUCCESS ∨ bytes_to_int r 1 1 = READ_ERROR) :
    on_data_received cb st r =
      completeOrAdvance { st with data := (odr_parse_step st r).1 } cb
        (Event.cancelTimer :: (odr_parse_step st r).2) := by
  unfold on_data_received
  rw [if_pos h]

theorem on_data_received_unknown (cb : Option (Snapshot → Except String Unit))
    (st : ClientState) (r : List Nat)
    (h : ¬ (bytes_to_int r 1 1 = READ_SUCCESS ∨ bytes_to_int r 1 1 = READ_ERROR)) :
    on_data_received cb st r =
      completeOrAdvance st cb [Event.cancelTimer, Event.unknownOp] := by
  unfold on_data_received
  rw [if_neg h]

theorem completeOrAdvance_fst_cb (st : ClientState)
    (cb cb' : Option (Snapshot → Except String Unit)) (pre pre' : List Event) :
    (completeOrAdvance st cb pre).1 = (completeOrAdvance st cb' pre').1 := by
  unfold completeOrAdvance
  by_cases h : st.sections.length - 1 ≤ st.sectionIndex <;> simp [h]

theorem completeOrAdvance_proj_congr {st1 st2 : ClientState}
    (cb : Option (Snapshot → Except String Unit)) (pre1 pre2 : List Event)
    (hlen : st1.sections.length = st2.sections.length)
    (hidx : st1.sectionIndex = st2.sectionIndex) (hdata : st1.data = st2.data) :
    (completeOrAdvance st1 cb pre1).1.sectionIndex =
      (completeOrAdvance st2 cb pre2).1.sectionIndex
  ∧ (completeOrAdvance st1 cb pre1).1.data = (completeOrAdvance st2 cb pre2).1.data := by
  unfold completeOrAdvance
  by_cases h : st1.sections.length - 1 ≤ st1.sectionIndex
  · rw [if_pos h, if_pos (by rw [← hlen, ← hidx]; exact h)]
    exact ⟨rfl, rfl⟩
  · rw [if_neg h, if_neg (by rw [← hlen, ← hidx]; exact h)]
    exact ⟨by simp [hidx], hdata⟩

theorem completeOrAdvance_pre_mem {e : Event} (st : ClientState)
    (cb : Option (Snapshot → Except String Unit)) (pre : List Event) (he : e ∈ pre) :
    e ∈ (completeOrAdvance st cb pre).2 := by
  unfold completeOrAdvance
  by_cases h : st.sections.length - 1 ≤ st.sectionIndex <;>
    simp [h, List.mem_append, he]

theorem parseCalls_cons (e : Event) (tr : List Event) :
    parseCalls (e :: tr) = parseCallsE e ++ parseCalls tr := by
  cases e <;> rfl

theorem delivers_cons (e : Event) (tr : List Event) :
    delivers (e :: tr) = deliversE e ++ delivers tr := by
  cases e <;> rfl

theorem parseCalls_completeOrAdvance (st : ClientState)
    (cb : Option (Snapshot → Except String Unit)) (pre : List Event) :
    parseCalls (completeOrAdvance st cb pre).2 = parseCalls pre := by
  unfold completeOrAdvance
  by_cases h : st.sections.length - 1 ≤ st.sectionIndex
  · rw [if_pos h]
    simp only [parseCalls_append, parseCalls_cons, parseCalls_cbEvents,
      parseCalls_pollEvents, parseCallsE]
    simp
  · rw [if_neg h]
    simp only [parseCalls_append, parseCalls_cons, parseCalls_read_section_events,
      parseCallsE]
    simp

theorem delivers_completeOrAdvance_last (st : ClientState)
    (cb : Option (Snapshot → Except String Unit)) (pre : List Event)
    (h : st.sections.length - 1 ≤ st.sectionIndex) :
    delivers (completeOrAdvance st cb pre).2 =
      delivers pre ++
        [on_read_operation_complete_data st.data st.deviceAlias st.clientName] := by
  rw [completeOrAdvance_last st cb pre h]
  simp only [delivers_append, delivers_cons, delivers_cbEvents, delivers_pollEvents,
    deliversE]
  simp

theorem delivers_completeOrAdvance_advance (st : ClientState)
    (cb : Option (Snapshot → Except String Unit)) (pre : List Event)
    (h : ¬ st.sections.length - 1 ≤ st.sectionIndex) :
    delivers (completeOrAdvance st cb pre).2 = delivers pre := by
  rw [completeOrAdvance_advance st cb pre h]
  simp only [delivers_append, delivers_cons, delivers_read_section_events, deliversE]
  simp

theorem completeOrAdvance_head (st : ClientState)
    (cb : Option (Snapshot → Except String Unit)) (rest : List Event) :
    ((completeOrAdvance st cb (Event.cancelTimer :: rest)).2).head? = some Event.cancelTimer := by
  unfold completeOrAdvance
  by_cases h : st.sections.length - 1 ≤ st.sectionIndex <;> simp [h]

theorem run_cycle_aux (cb : Option (Snapshot → Except String Unit)) :
    ∀ (todo : List (List Nat × Snapshot)) (st : ClientState),
      st.sections.length = st.sectionIndex + todo.length →
      (∀ j (hj : j < todo.length), ∃ sec,
        st.sections[st.sectionIndex + j]? = some sec ∧ SecOk sec (todo.get ⟨j, hj⟩)) →
      todo ≠ [] →
      parseCalls (runResponses cb st (todo.map Prod.fst)).2 =
        List.range' st.sectionIndex todo.length
    ∧ delivers (runResponses cb st (todo.map Prod.fst)).2 =
        [on_read_operation_complete_data
          (todo.foldl (fun d ru => updMap d ru.2) st.data) st.deviceAlias st.clientName]
    ∧ (runResponses cb st (todo.map Prod.fst)).1.sectionIndex = 0
    ∧ (runResponses cb st (todo.map Prod.fst)).1.data = [] := by
  intro todo
  induction todo with
  | nil => intro st _ _ hne; exact absurd rfl hne
  | cons ru rest ih =>
    intro st hlen hok _
    have h0 := hok 0 (by simp)
    rw [Nat.add_zero] at h0
    obtain ⟨sec, hsec, hso⟩ := h0
    unfold SecOk at hso
    obtain ⟨hop, hl, p, hp, hres⟩ := hso
    have hop' : bytes_to_int ru.1 1 1 = READ_SUCCESS := hop
    have hl' : sec.words * 2 + 5 = ru.1.length := hl
    have hres' : p ru.1 = Except.ok ru.2 := hres
    have hstep : on_data_received cb st ru.1 =
        completeOrAdvance { st with data := updMap st.data ru.2 } cb
          [Event.cancelTimer, Event.parseOk st.sectionIndex] := by
      rw [on_data_received_op cb st ru.1 (Or.inl hop'),
          odr_parse_step_ok hsec hp hop' hl' hres']
    cases rest with
    | nil =>
      have hlast : st.sections.length - 1 ≤ st.sectionIndex := by
        simp at hlen; omega
      have hrun : runResponses cb st ((ru :: []).map Prod.fst) =
          ((on_data_received cb st ru.1).1, (on_data_received cb st ru.1).2 ++ []) := by
        simp [runResponses]
      rw [hrun, hstep]
      refine ⟨?_, ?_, ?_, ?_⟩
      · rw [List.append_nil, parseCalls_completeOrAdvance]
        rfl
      · rw [List.append_nil,
          delivers_completeOrAdvance_last { st with data := updMap st.data ru.2 } cb _ hlast]
        rfl
      · rw [completeOrAdvance_last { st with data := updMap st.data ru.2 } cb _ hlast]
      · rw [completeOrAdvance_last { st with data := updMap st.data ru.2 } cb _ hlast]
    | cons r2 rest2 =>
      have hadv : ¬ st.sections.length - 1 ≤ st.sectionIndex := by
        simp at hlen; omega
      have hco := completeOrAdvance_advance
        { st with data := updMap st.data ru.2 } cb
        [Event.cancelTimer, Event.parseOk st.sectionIndex] hadv
      rw [hco] at hstep
      have hih := ih { st with sectionIndex := st.sectionIndex + 1, data := updMap st.data ru.2 }
        (by simp at hlen ⊢; omega)
        (by
          intro j hj
          have hnext := hok (j + 1) (by simpa using Nat.succ_lt_succ hj)
          have harith : st.sectionIndex + (j + 1) = st.sectionIndex + 1 + j := by omega
          rw [harith] at hnext
          exact hnext)
        (by simp)
      have hrun : runResponses cb st ((ru :: r2 :: rest2).map Prod.fst) =
          ((runResponses cb (on_data_received cb st ru.1).1 ((r2 :: rest2).map Prod.fst)).1,
           (on_data_received cb st ru.1).2 ++
             (runResponses cb (on_data_received cb st ru.1).1 ((r2 :: rest2).map Prod.fst)).2) := by
        simp [runResponses]
      rw [hrun, hstep]
      obtain ⟨ih1, ih2, ih3, ih4⟩ := hih
      dsimp only at ih1 ih2 ih3 ih4 ⊢
      refine ⟨?_, ?_, ?_, ?_⟩
      · rw [parseCalls_append, ih1]
        have hpre : parseCalls ([Event.cancelTimer, Event.parseOk st.sectionIndex] ++
            Event.advanceIndex (st.sectionIndex + 1) :: Event.pacingSleep ::
              read_section_events
                (ClientState.mk st.sections (st.sectionIndex + 1) (updMap st.data ru.2)
                  st.deviceAlias st.clientName st.pollingEnabled st.pollInterval)) =
            [st.sectionIndex] := by
          simp only [parseCalls_append, parseCalls_cons, parseCalls_read_section_events,
            parseCallsE]
          simp [parseCalls_nil]
        rw [hpre]
        rfl
      · rw [delivers_append, ih2]
        have hpre : delivers ([Event.cancelTimer, Event.parseOk st.sectionIndex] ++
            Event.advanceIndex (st.sectionIndex + 1) :: Event.pacingSleep ::
              read_section_events
                (ClientState.mk st.sections (st.sectionIndex + 1) (updMap st.data ru.2)
                  st.deviceAlias st.clientName st.pollingEnabled st.pollInterval)) = [] := by
          simp only [delivers_append, delivers_cons, delivers_read_section_events, deliversE]
          simp [delivers_nil]
        rw [hpre]
        rfl
      · exact ih3
      · exact ih4

/-! ## Claim theorems -/

/-- Claim C1 (code-bug evidence).  The claim says a session whose transport
fails every connect attempt reaches Failed after exactly 3 attempts with a
2-second backoff.  In the code, a fatal connect failure is absorbed inside
`BaseClient.start` (routed to `__on_connect_fail`, which emits one onError
and stops), so `_attempt_start` returns True and `BatteryClient.start`
performs exactly ONE attempt (first conjunct).  The second conjunct shows
the retry loop itself is bounded by exactly 3 attempts when every
`_attempt_start` does raise — the behavior the claim and the code's own
log strings intend, which connect failures never reach. -/
theorem battery_start_retry_dead_on_connect_failure :
    battery_start (fun _ => ConnectOutcome.raiseErr "Connection failed") =
      BatteryStartResult.mk 1 1
  ∧ battery_start_generic (fun _ => true) (fun _ => 0) = BatteryStartResult.mk 3 0 := by
  exact ⟨by decide, by decide⟩

/-- Claim C2 counterexample.  Neither error class named by the claim reaches
the recovery path: a read timeout (in particular on the first section) runs
`BaseClient.on_read_timeout`, which only stops the session — no disconnect,
no 2-second wait, no reconnect; and a malformed first-section response
(`r2_badLen` handled at section 0 of the battery profile) simply advances
the cycle to section 1 with no recovery events either. -/
theorem timeout_and_decode_errors_do_not_recover_cex :
    (Event.stop ∈ on_read_timeout_events
      ∧ Event.reconnect ∉ on_read_timeout_events
      ∧ Event.disconnect ∉ on_read_timeout_events
      ∧ Event.sleepSecs RETRY_DELAY ∉ on_read_timeout_events)
  ∧ ((on_data_received Option.none battSt r2_badLen).1.sectionIndex = 1
      ∧ Event.disconnect ∉ (on_data_received Option.none battSt r2_badLen).2
      ∧ Event.reconnect ∉ (on_data_received Option.none battSt r2_badLen).2
      ∧ Event.sleepSecs RETRY_DELAY ∉ (on_data_received Option.none battSt r2_badLen).2) := by
  exact ⟨by decide, by decide⟩

/-- Claim C2 (amended).  The recovery path of `BatteryClient.read_section`
is triggered by an exception raised out of `super().read_section()` on the
first section while fewer than 3 connection attempts are recorded: it
disconnects best-effort (a raising disconnect changes only the logged
event, never the continuation), waits the fixed 2-second delay, reconnects
(which itself issues the current section's read) and explicitly re-issues
the current section's request.  On later sections, or with the budget
exhausted, the exception propagates and no recovery events occur. -/
theorem battery_read_section_recovery_amended :
    (∀ (st : ClientState) (ac : Nat) (dr : Bool),
      st.sectionIndex = 0 → ac < MAX_BATTERY_ATTEMPTS →
      battery_read_section true dr false st ac =
        ((if dr then [Event.disconnectErrorIgnored] else [Event.disconnect]) ++
          Event.sleepSecs RETRY_DELAY ::
            (Event.reconnect :: (read_section_events st ++ read_section_events st)), false))
  ∧ (∀ (st : ClientState) (ac : Nat) (dr rr : Bool),
      st.sectionIndex ≠ 0 ∨ MAX_BATTERY_ATTEMPTS ≤ ac →
      battery_read_section true dr rr st ac = ([], true)) := by
  constructor
  · intro st ac dr h0 hac
    unfold battery_read_section
    simp [h0, hac]
  · intro st ac dr rr h
    unfold battery_read_section
    have hc : ¬ (st.sectionIndex = 0 ∧ ac < MAX_BATTERY_ATTEMPTS) := by
      rcases h with h | h
      · exact fun hc => h hc.1
      · exact fun hc => absurd hc.2 (by omega)
    simp [hc]

/-- Claim C2 witness: recovery at section 0 with one attempt recorded. -/
theorem battery_read_section_recovery_witness :
    battery_read_section true false false battSt 1 =
      ([Event.disconnect, Event.sleepSecs RETRY_DELAY, Event.reconnect,
        Event.armTimer READ_TIMEOUT, Event.issueRead 5000 17,
        Event.armTimer READ_TIMEOUT, Event.issueRead 5000 17], false)
  ∧ battery_read_section true false false { battSt with sectionIndex := 2 } 1 = ([], true) := by
  constructor
  · exact ((battery_read_section_recovery_amended).1 battSt 1 false rfl (by decide)).trans
      (by decide)
  · exact (battery_read_section_recovery_amended).2 { battSt with sectionIndex := 2 } 1
      false false (Or.inl (by decide))

/-- Claim C3 counterexample.  The section-4 response `r5_address` carries
trailing checksum bytes [0, 0], which differ from the CRC16 recomputed over
all preceding bytes ([37, 251] is the correct pair for the body
[255, 3, 2, 0, 48]), yet `on_data_received` still invokes the parser and
the decoded `device_id` is delivered: received responses are never
checksum-validated, so no ChecksumMismatch rejection exists. -/
theorem response_checksum_not_validated_cex :
    crc16_modbus (r5_address.take (r5_address.length - 2)) ≠
      r5_address.drop (r5_address.length - 2)
  ∧ Event.parseOk 4 ∈
      (on_data_received Option.none { battSt with sectionIndex := 4 } r5_address).2
  ∧ lookupMap
      ((delivers
        (on_data_received Option.none { battSt with sectionIndex := 4 } r5_address).2).headD [])
      "device_id" = some (Value.n 48) := by
  exact ⟨by decide, by decide, by decide⟩

/-- Claim C3 (amended).  The CRC16 checksum exists only on the request
side: `create_generic_read_request` appends the two checksum bytes to the
6-byte body (first conjunct), while the notification handler invokes the
current section's parser whenever the operation byte is READ_SUCCESS, the
section has a parser and the length equals words*2+5 — with no condition
whatsoever on the response's trailing checksum bytes (second conjunct). -/
theorem checksum_only_on_requests_amended :
    (∀ devId func regAddr readWrd : Nat,
      create_generic_read_request devId func regAddr readWrd =
        [devId, func, int_to_bytes regAddr 0, int_to_bytes regAddr 1,
         int_to_bytes readWrd 0, int_to_bytes readWrd 1] ++
          crc16_modbus [devId, func, int_to_bytes regAddr 0, int_to_bytes regAddr 1,
            int_to_bytes readWrd 0, int_to_bytes readWrd 1])
  ∧ (∀ (cb : Option (Snapshot → Except String Unit)) (st : ClientState) (r : List Nat)
      (sec : Section) (p : List Nat → Except String Snapshot),
      st.sections[st.sectionIndex]? = some sec → sec.parser = some p →
      bytes_to_int r 1 1 = READ_SUCCESS → sec.words * 2 + 5 = r.length →
      parseCalls (on_data_received cb st r).2 = [st.sectionIndex]) := by
  constructor
  · intro devId func regAddr readWrd
    rfl
  · intro cb st r sec p hsec hp hop hlen
    rw [on_data_received_op cb st r (Or.inl hop)]
    cases hres : p r with
    | ok u =>
      rw [odr_parse_step_ok hsec hp hop hlen hres, parseCalls_completeOrAdvance]
      rfl
    | error e =>
      rw [odr_parse_step_err hsec hp hop hlen hres, parseCalls_completeOrAdvance]
      rfl

/-- Claim C3 witness: request frame for section 4 of the battery profile,
and a parser invocation on a response whose checksum bytes are wrong. -/
theorem checksum_only_on_requests_witness :
    create_generic_read_request 255 3 5223 1 = [255, 3, 20, 103, 0, 1, 37, 251]
  ∧ parseCalls
      (on_data_received Option.none { battSt with sectionIndex := 4 } r5_address).2 = [4] := by
  constructor
  · exact ((checksum_only_on_requests_amended).1 255 3 5223 1).trans (by decide)
  · exact (checksum_only_on_requests_amended).2 Option.none
      { battSt with sectionIndex := 4 } r5_address
      (Section.mk 5223 1 (some parse_device_address)) parse_device_address
      rfl rfl (by decide) (by decide)

/-- Claim C4 (confirmed).  General part: for every response whose length
differs from the current section's words*2+5, no parser is invoked
(`parseCalls` of the handler's trace is empty) and any snapshot delivered
by that handler call is built from the untouched data — the response is
never partially parsed.  Scenario part (spec 8): a battery cycle with
section 2 of 5 corrupted (wrong length) delivers exactly one snapshot in
which that section's fields (`sensor_count`, `temperature_0`) are absent
while all fields of sections 1, 3, 4, 5 are present and correctly
decoded. -/
theorem malformed_length_no_parse :
    (∀ (cb : Option (Snapshot → Except String Unit)) (st : ClientState)
      (r : List Nat) (sec : Section),
      st.sections[st.sectionIndex]? = some sec →
      sec.words * 2 + 5 ≠ r.length →
      parseCalls (on_data_received cb st r).2 = []
      ∧ ∀ m ∈ delivers (on_data_received cb st r).2,
          m = on_read_operation_complete_data st.data st.deviceAlias st.clientName)
  ∧ ((delivers (runResponses Option.none battSt c4_responses).2).length = 1
      ∧ lookupMap c4_delivered "sensor_count" = Option.none
      ∧ lookupMap c4_delivered "temperature_0" = Option.none
      ∧ lookupMap c4_delivered "cell_count" = some (Value.n 2)
      ∧ lookupMap c4_delivered "cell_voltage_0" = some (Value.scaled 33 1)
      ∧ lookupMap c4_delivered "cell_voltage_1" = some (Value.scaled 34 1)
      ∧ lookupMap c4_delivered "current" = some (Value.scaled 100 2)
      ∧ lookupMap c4_delivered "voltage" = some (Value.scaled 132 1)
      ∧ lookupMap c4_delivered "remaining_charge" = some (Value.scaled 10000 3)
      ∧ lookupMap c4_delivered "capacity" = some (Value.scaled 50000 3)
      ∧ lookupMap c4_delivered "model" = some (Value.s "RBT100LFP12S")
      ∧ lookupMap c4_delivered "device_id" = some (Value.n 48)) := by
  constructor
  · intro cb st r sec hsec hlen
    have heta : ({ st with data := st.data } : ClientState) = st := rfl
    by_cases hop : bytes_to_int r 1 1 = READ_SUCCESS ∨ bytes_to_int r 1 1 = READ_ERROR
    · rw [on_data_received_op cb st r hop,
        odr_parse_step_skip_cond hsec (fun hc => hlen hc.2)]
      dsimp only
      rw [heta]
      constructor
      · rw [parseCalls_completeOrAdvance]
        rfl
      · intro m hm
        by_cases hlast : st.sections.length - 1 ≤ st.sectionIndex
        · rw [delivers_completeOrAdvance_last _ _ _ hlast] at hm
          simp [delivers_cons, deliversE, delivers_nil] at hm
          exact hm
        · rw [delivers_completeOrAdvance_advance _ _ _ hlast] at hm
          simp [delivers_cons, deliversE, delivers_nil] at hm
    · rw [on_data_received_unknown cb st r hop]
      constructor
      · rw [parseCalls_completeOrAdvance]
        rfl
      · intro m hm
        by_cases hlast : st.sections.length - 1 ≤ st.sectionIndex
        · rw [delivers_completeOrAdvance_last _ _ _ hlast] at hm
          simp [delivers_cons, deliversE, delivers_nil] at hm
          exact hm
        · rw [delivers_completeOrAdvance_advance _ _ _ hlast] at hm
          simp [delivers_cons, deliversE, delivers_nil] at hm
  · exact ⟨by decide, by decide, by decide, by decide, by decide, by decide, by decide,
      by decide, by decide, by decide, by decide, by decide⟩

/-- Claim C4 witness: the general part applied to the malformed
first-section response of the battery profile. -/
theorem malformed_length_no_parse_witness :
    parseCalls (on_data_received Option.none battSt r2_badLen).2 = [] := by
  exact ((malformed_length_no_parse).1 Option.none battSt r2_badLen
    (Section.mk 5000 17 (some parse_cell_volt_info)) rfl (by decide)).1

/-- Claim C5 counterexample.  In an all-well-formed battery cycle the
snapshot delivered to the data callback is NOT equal to the union of the
five parsers' output fields: it additionally carries the reserved keys
'__device' and '__client', which no parser produces. -/
theorem snapshot_has_reserved_keys_cex :
    (delivers (runResponses Option.none battSt c5_responses).2).length = 1
  ∧ c5_delivered ≠ parsersUnion (batterySections "C") c5_responses
  ∧ lookupMap c5_delivered "__device" = some (Value.s "batt1")
  ∧ lookupMap c5_delivered "__client" = some (Value.s "BatteryClient")
  ∧ lookupMap (parsersUnion (batterySections "C") c5_responses) "__device" = Option.none := by
  exact ⟨by decide, by decide, by decide, by decide, by decide⟩

/-- Claim C5 (amended).  For a device profile with N sections, one full
poll cycle in which every response is well-formed invokes exactly N parser
calls, one per section in list order, and the snapshot delivered to the
data callback equals the union of all N parsers' output fields together
with the two reserved keys added by on_read_operation_complete just before
delivery; the cycle then restarts at section 0. -/
theorem cycle_completeness_amended :
    ∀ (cb : Option (Snapshot → Except String Unit)) (secs : List Section)
      (alias_ cls : String) (poll : Bool) (ival : Nat)
      (todo : List (List Nat × Snapshot)),
      todo ≠ [] → secs.length = todo.length →
      (∀ j (hj : j < todo.length), ∃ sec, secs[j]? = some sec ∧ SecOk sec (todo.get ⟨j, hj⟩)) →
      parseCalls (runResponses cb (ClientState.mk secs 0 [] alias_ cls poll ival)
          (todo.map Prod.fst)).2 = List.range secs.length
    ∧ delivers (runResponses cb (ClientState.mk secs 0 [] alias_ cls poll ival)
          (todo.map Prod.fst)).2 =
        [on_read_operation_complete_data
          (todo.foldl (fun d ru => updMap d ru.2) []) alias_ cls]
    ∧ (runResponses cb (ClientState.mk secs 0 [] alias_ cls poll ival)
          (todo.map Prod.fst)).1.sectionIndex = 0 := by
  intro cb secs alias_ cls poll ival todo hne hlen hok
  have h := run_cycle_aux cb todo (ClientState.mk secs 0 [] alias_ cls poll ival)
    (by simpa using hlen)
    (by intro j hj; simpa using hok j hj)
    hne
  obtain ⟨h1, h2, h3, _⟩ := h
  refine ⟨?_, h2, h3⟩
  rw [h1, hlen, List.range_eq_range']

/-- Claim C5 witness: the full battery cycle on the five well-formed
responses invokes the five parsers in order and delivers the tagged union
of their outputs. -/
theorem cycle_completeness_witness :
    parseCalls (runResponses Option.none
        (ClientState.mk (batterySections "C") 0 [] "batt1" "BatteryClient" false 10)
        (c5_todo.map Prod.fst)).2 = List.range 5
  ∧ delivers (runResponses Option.none
        (ClientState.mk (batterySections "C") 0 [] "batt1" "BatteryClient" false 10)
        (c5_todo.map Prod.fst)).2 =
      [on_read_operation_complete_data
        (c5_todo.foldl (fun d ru => updMap d ru.2) []) "batt1" "BatteryClient"] := by
  have h := cycle_completeness_amended Option.none (batterySections "C") "batt1"
    "BatteryClient" false 10 c5_todo (by simp [c5_todo]) (by decide)
    (by
      intro j hj
      have hj5 : j < 5 := by simpa [c5_todo] using hj
      interval_cases j
      · exact ⟨Section.mk 5000 17 (some parse_cell_volt_info), rfl,
          rfl, rfl, parse_cell_volt_info, rfl, rfl⟩
      · exact ⟨Section.mk 5017 17 (some (parse_cell_temp_info "C")), rfl,
          rfl, rfl, parse_cell_temp_info "C", rfl, rfl⟩
      · exact ⟨Section.mk 5042 6 (some parse_battery_info), rfl,
          rfl, rfl, parse_battery_info, rfl, rfl⟩
      · exact ⟨Section.mk 5122 8 (some parse_device_info), rfl,
          rfl, rfl, parse_device_info, rfl, rfl⟩
      · exact ⟨Section.mk 5223 1 (some parse_device_address), rfl,
          rfl, rfl, parse_device_address, rfl, rfl⟩)
  exact ⟨h.1, h.2.1⟩

/-- Claim C6 (confirmed).  After read_section arms the 15-second timer,
the await resolves within the deadline: the session leaves
AwaitingResponse no later than armedAt + READ_TIMEOUT; if no notification
ever arrives the armed timer fires and the machine stops (on_read_timeout
calls stop); if the notification arrives before the deadline the pending
timer is cancelled and never fires — indeed the handler's very first
recorded action is always the timer cancellation. -/
theorem read_timeout_bounds_wait :
    (∀ (armedAt : Nat) (notifyAt : Option Nat),
      (resolveAwait armedAt notifyAt).phase ≠ Phase.awaitingResponse
      ∧ (resolveAwait armedAt notifyAt).exitTime ≤ armedAt + READ_TIMEOUT)
  ∧ (∀ armedAt : Nat, (resolveAwait armedAt Option.none).phase = Phase.stopped
      ∧ (resolveAwait armedAt Option.none).timerFired = true)
  ∧ (∀ (armedAt t : Nat), t < armedAt + READ_TIMEOUT →
      (resolveAwait armedAt (some t)).timerCancelled = true
      ∧ (resolveAwait armedAt (some t)).timerFired = false)
  ∧ (∀ (cb : Option (Snapshot → Except String Unit)) (st : ClientState) (r : List Nat),
      ((on_data_received cb st r).2).head? = some Event.cancelTimer) := by
  refine ⟨?_, ?_, ?_, ?_⟩
  · intro armedAt notifyAt
    cases notifyAt with
    | none => exact ⟨fun hC => Phase.noConfusion hC, le_refl _⟩
    | some t =>
      by_cases h : t < armedAt + READ_TIMEOUT
      · have heq : resolveAwait armedAt (some t) =
            AwaitResult.mk Phase.receivedData t true false := by
          unfold resolveAwait
          dsimp only
          rw [if_pos h]
        rw [heq]
        exact ⟨fun hC => Phase.noConfusion hC, le_of_lt h⟩
      · have heq : resolveAwait armedAt (some t) =
            AwaitResult.mk timeout_fire_phase (armedAt + READ_TIMEOUT) false true := by
          unfold resolveAwait
          dsimp only
          rw [if_neg h]
        rw [heq]
        exact ⟨fun hC => Phase.noConfusion hC, le_refl _⟩
  · intro armedAt
    exact ⟨rfl, rfl⟩
  · intro armedAt t h
    have heq : resolveAwait armedAt (some t) =
        AwaitResult.mk Phase.receivedData t true false := by
      unfold resolveAwait
      dsimp only
      rw [if_pos h]
    rw [heq]
    exact ⟨rfl, rfl⟩
  · intro cb st r
    unfold on_data_received
    by_cases h : bytes_to_int r 1 1 = READ_SUCCESS ∨ bytes_to_int r 1 1 = READ_ERROR
    · rw [if_pos h]
      exact completeOrAdvance_head _ _ _
    · rw [if_neg h]
      exact completeOrAdvance_head _ _ _

/-- Claim C6 witness: a concrete await with no notification stops exactly
at the deadline, a notification at 104 < 115 cancels the timer, and a
concrete handler call records the cancellation first. -/
theorem read_timeout_bounds_wait_witness :
    (resolveAwait 100 Option.none).phase = Phase.stopped
  ∧ (resolveAwait 100 Option.none).exitTime ≤ 100 + READ_TIMEOUT
  ∧ (resolveAwait 100 (some 104)).timerCancelled = true
  ∧ ((on_data_received Option.none battSt r1_cellVolt).2).head? = some Event.cancelTimer := by
  exact ⟨(read_timeout_bounds_wait.2.1 100).1,
    (read_timeout_bounds_wait.1 100 Option.none).2,
    (read_timeout_bounds_wait.2.2.1 100 104 (by decide)).1,
    read_timeout_bounds_wait.2.2.2 Option.none battSt r1_cellVolt⟩

/-- Claim C7 (confirmed).  Exceptions inside caller-supplied handlers and
inside section parsers are contained: (1) the state reached by
on_data_received is identical whatever the data callback does, including
raising; (2) when the current section's parser raises, the resulting
sectionIndex and data equal those of the same run with a parser that
returned normally with no fields; (3) when the raising parser was actually
invoked, the failure is logged in the trace (`parseFailed`); (4) a raising
callback is caught by __safe_callback and only logged
(`callbackFailed`). -/
theorem callback_and_parser_exceptions_contained :
    (∀ (cb : Option (Snapshot → Except String Unit)) (st : ClientState) (r : List Nat),
      (on_data_received cb st r).1 = (on_data_received Option.none st r).1)
  ∧ (∀ (cb : Option (Snapshot → Except String Unit)) (st : ClientState) (r : List Nat)
      (sec : Section) (p : List Nat → Except String Snapshot) (e : String),
      st.sections[st.sectionIndex]? = some sec → sec.parser = some p →
      p r = Except.error e →
      (on_data_received cb st r).1.sectionIndex =
        (on_data_received cb (harmlessParserAt st sec) r).1.sectionIndex
      ∧ (on_data_received cb st r).1.data =
        (on_data_received cb (harmlessParserAt st sec) r).1.data)
  ∧ (∀ (cb : Option (Snapshot → Except String Unit)) (st : ClientState) (r : List Nat)
      (sec : Section) (p : List Nat → Except String Snapshot) (e : String),
      st.sections[st.sectionIndex]? = some sec → sec.parser = some p →
      bytes_to_int r 1 1 = READ_SUCCESS → sec.words * 2 + 5 = r.length →
      p r = Except.error e →
      Event.parseFailed st.sectionIndex ∈ (on_data_received cb st r).2)
  ∧ (∀ (f : Snapshot → Except String Unit) (m : Snapshot) (e : String),
      f m = Except.error e → cbEvents (some f) m = [Event.callbackFailed]) := by
  refine ⟨?_, ?_, ?_, ?_⟩
  · intro cb st r
    by_cases h : bytes_to_int r 1 1 = READ_SUCCESS ∨ bytes_to_int r 1 1 = READ_ERROR
    · rw [on_data_received_op cb st r h, on_data_received_op Option.none st r h]
      exact completeOrAdvance_fst_cb _ _ _ _ _
    · rw [on_data_received_unknown cb st r h, on_data_received_unknown Option.none st r h]
      exact completeOrAdvance_fst_cb _ _ _ _ _
  · intro cb st r sec p e hsec hp herr
    have hlen2 : (harmlessParserAt st sec).sections.length = st.sections.length :=
      harmless_length st sec
    by_cases hop : bytes_to_int r 1 1 = READ_SUCCESS ∨ bytes_to_int r 1 1 = READ_ERROR
    · rw [on_data_received_op cb st r hop, on_data_received_op cb (harmlessParserAt st sec) r hop]
      by_cases hc : bytes_to_int r 1 1 = READ_SUCCESS ∧ sec.words * 2 + 5 = r.length
      · rw [odr_parse_step_err hsec hp hc.1 hc.2 herr,
          odr_parse_step_ok (harmless_lookup hsec) rfl hc.1 hc.2 rfl]
        exact completeOrAdvance_proj_congr cb _ _ (by simpa using hlen2.symm) rfl
          (updMap_nil st.data).symm
      · rw [odr_parse_step_skip_cond hsec hc,
          odr_parse_step_skip_cond (harmless_lookup hsec) hc]
        exact completeOrAdvance_proj_congr cb _ _ (by simpa using hlen2.symm) rfl rfl
    · rw [on_data_received_unknown cb st r hop,
        on_data_received_unknown cb (harmlessParserAt st sec) r hop]
      exact completeOrAdvance_proj_congr cb _ _ hlen2.symm rfl rfl
  · intro cb st r sec p e hsec hp hop hl herr
    rw [on_data_received_op cb st r (Or.inl hop), odr_parse_step_err hsec hp hop hl herr]
    exact completeOrAdvance_pre_mem _ _ _ (by simp)
  · intro f m e h
    unfold cbEvents
    dsimp only
    rw [h]

/-- Claim C7 witness: a raising callback leaves the state unchanged
relative to no callback, a raising parser (non-ASCII device-info bytes)
is logged as `parseFailed`, and __safe_callback maps a raising callback to
exactly the logged event. -/
theorem callback_and_parser_exceptions_contained_witness :
    (on_data_received (some (fun _ => Except.error "boom")) battSt r1_cellVolt).1 =
      (on_data_received Option.none battSt r1_cellVolt).1
  ∧ Event.parseFailed 3 ∈
      (on_data_received Option.none { battSt with sectionIndex := 3 } r4_nonAscii).2
  ∧ cbEvents (some (fun _ => Except.error "boom")) [] = [Event.callbackFailed] := by
  refine ⟨(callback_and_parser_exceptions_contained).1 _ battSt r1_cellVolt, ?_, ?_⟩
  · exact (callback_and_parser_exceptions_contained).2.2.1 Option.none
      { battSt with sectionIndex := 3 } r4_nonAscii
      (Section.mk 5122 8 (some parse_device_info)) parse_device_info
      "UnicodeDecodeError" rfl rfl (by decide) (by decide) rfl
  · exact (callback_and_parser_exceptions_contained).2.2.2
      (fun _ => Except.error "boom") [] "boom" rfl

/-- Claim C8 (confirmed).  `__on_connect_fail` classifies a connect
failure by its error text: when the text contains both "BleakDBusError"
and "Operation is not supported" the failure is non-fatal — the handler
returns with no events, emitting no onError and not stopping the session;
every other connect failure invokes the error callback and then stops. -/
theorem connect_fail_classification :
    ∀ t : String,
      (unsupported_signal t = true →
        on_connect_fail_events t = []
        ∧ Event.stop ∉ on_connect_fail_events t
        ∧ Event.emitError t ∉ on_connect_fail_events t)
    ∧ (unsupported_signal t = false →
        on_connect_fail_events t = [Event.emitError t, Event.stop]) := by
  intro t
  constructor
  · intro h
    have he : on_connect_fail_events t = [] := by
      unfold on_connect_fail_events
      rw [if_pos h]
    refine ⟨he, ?_, ?_⟩ <;> rw [he] <;> simp
  · intro h
    unfold on_connect_fail_events
    rw [if_neg (by simp [h])]

/-- Claim C8 witness: the unsupported-operation signal is swallowed; an
ordinary connect failure emits the error and stops. -/
theorem connect_fail_classification_witness :
    on_connect_fail_events "BleakDBusError: Operation is not supported" = []
  ∧ on_connect_fail_events "Device disconnected unexpectedly" =
      [Event.emitError "Device disconnected unexpectedly", Event.stop] := by
  exact ⟨((connect_fail_classification "BleakDBusError: Operation is not supported").1
      (by decide)).1,
    (connect_fail_classification "Device disconnected unexpectedly").2 (by decide)⟩

/-- Claim C9 (confirmed).  Provided the decoded fields carry no reserved
names (no battery parser emits a field starting with "__"), the snapshot
delivered by on_read_operation_complete is exactly the decoded fields plus
the two reserved keys '__device' (the configured alias) and '__client'
(the client class name) appended just before delivery; and the MQTT
discovery publisher's field loop skips every double-underscore field, so
its processed fields are unchanged by the reserved keys and none of them
starts with "__". -/
theorem reserved_keys_and_mqtt_skip :
    ∀ (d : Snapshot) (alias_ cls : String),
      (∀ p ∈ d, py_startswith p.1 "__" = false) →
      on_read_operation_complete_data d alias_ cls =
        d ++ [("__device", Value.s alias_), ("__client", Value.s cls)]
    ∧ (∀ (sent : List String) (hm : String → Bool),
        send_mqtt_discovery_fields (on_read_operation_complete_data d alias_ cls) sent hm =
          send_mqtt_discovery_fields d sent hm)
    ∧ (∀ (sent : List String) (hm : String → Bool) (f : String),
        f ∈ send_mqtt_discovery_fields (on_read_operation_complete_data d alias_ cls) sent hm →
        py_startswith f "__" = false) := by
  intro d alias_ cls hall
  have hkey : ∀ k : String, py_startswith k "__" = true →
      d.any (fun p => p.1 == k) = false := by
    intro k hk
    rw [List.any_eq_false]
    intro x hx hbeq
    have hxk : x.1 = k := eq_of_beq hbeq
    have hxs := hall x hx
    rw [hxk, hk] at hxs
    exact Bool.noConfusion hxs
  have hstep1 : updEntry d "__device" (Value.s alias_) =
      d ++ [("__device", Value.s alias_)] := by
    unfold updEntry
    rw [if_neg (by simp [hkey "__device" (by decide)])]
  have hcli : (d ++ [("__device", Value.s alias_)]).any (fun p => p.1 == "__client") = false := by
    rw [List.any_append, hkey "__client" (by decide)]
    rfl
  have hstep2 : updEntry (d ++ [("__device", Value.s alias_)]) "__client" (Value.s cls) =
      (d ++ [("__device", Value.s alias_)]) ++ [("__client", Value.s cls)] := by
    unfold updEntry
    rw [if_neg (by simp [hcli])]
  have h1 : on_read_operation_complete_data d alias_ cls =
      d ++ [("__device", Value.s alias_), ("__client", Value.s cls)] := by
    unfold on_read_operation_complete_data
    rw [hstep1, hstep2, List.append_assoc]
    rfl
  refine ⟨h1, ?_, ?_⟩
  · intro sent hm
    rw [h1]
    unfold send_mqtt_discovery_fields
    rw [List.map_append, List.filter_append]
    have hres : List.filter (fun f => !(py_startswith f "__") && !(sent.contains f) && hm f)
        (List.map Prod.fst
          [("__device", Value.s alias_), ("__client", Value.s cls)]) = [] := rfl
    rw [hres, List.append_nil]
  · intro sent hm f hf
    unfold send_mqtt_discovery_fields at hf
    rw [List.mem_filter] at hf
    have hpred := hf.2
    have hns : (!(py_startswith f "__")) = true :=
      ((Bool.and_eq_true _ _).mp ((Bool.and_eq_true _ _).mp hpred).1).1
    simpa using hns

/-- Claim C9 witness: delivering a one-field snapshot appends exactly the
two reserved keys, and the discovery loop still processes only the
decoded field. -/
theorem reserved_keys_and_mqtt_skip_witness :
    on_read_operation_complete_data [("voltage", Value.scaled 132 1)] "batt1" "BatteryClient" =
      [("voltage", Value.scaled 132 1), ("__device", Value.s "batt1"),
       ("__client", Value.s "BatteryClient")]
  ∧ send_mqtt_discovery_fields
      (on_read_operation_complete_data [("voltage", Value.scaled 132 1)] "batt1"
        "BatteryClient") [] (fun _ => true) = ["voltage"] := by
  have h := reserved_keys_and_mqtt_skip [("voltage", Value.scaled 132 1)] "batt1"
    "BatteryClient" (by decide)
  refine ⟨h.1, ?_⟩
  rw [h.2.1 [] (fun _ => true)]
  rfl

/-- Claim C10 counterexample.  In a complete last-section execution of the
handler (battery profile, section 4, well-formed response) the trace order
is resetIndex, then deliver, then clearData: the index reset happens
BEFORE the snapshot is delivered and the data map cleared, not after as
the claim's parenthetical states. -/
theorem section_index_reset_order_cex :
    ¬ ((on_data_received Option.none { battSt with sectionIndex := 4 } r5_address).2.findIdx
          isClearEv <
        (on_data_received Option.none { battSt with sectionIndex := 4 } r5_address).2.findIdx
          isResetEv)
  ∧ (on_data_received Option.none { battSt with sectionIndex := 4 } r5_address).2.findIdx
        isResetEv <
      (on_data_received Option.none { battSt with sectionIndex := 4 } r5_address).2.findIdx
        isDeliverEv
  ∧ (on_data_received Option.none { battSt with sectionIndex := 4 } r5_address).2.findIdx
        isDeliverEv <
      (on_data_received Option.none { battSt with sectionIndex := 4 } r5_address).2.findIdx
        isClearEv := by
  exact ⟨by decide, by decide, by decide⟩

/-- Claim C10 (amended).  For a client with a non-empty sections list,
every complete execution of on_data_received leaves section_index within
[0, number of sections - 1]: it increments the index by exactly one when
the handled section is not the last, and when it is the last it resets the
index to 0, clears the data map, and its trace delivers the snapshot
between the reset and the clearing (reset first, then deliver, then
clear). -/
theorem section_index_invariant_amended :
    ∀ (cb : Option (Snapshot → Except String Unit)) (st : ClientState) (r : List Nat),
      0 < st.sections.length →
      (on_data_received cb st r).1.sectionIndex < st.sections.length
    ∧ (st.sectionIndex < st.sections.length - 1 →
        (on_data_received cb st r).1.sectionIndex = st.sectionIndex + 1)
    ∧ (st.sections.length - 1 ≤ st.sectionIndex →
        (on_data_received cb st r).1.sectionIndex = 0
        ∧ (on_data_received cb st r).1.data = []
        ∧ ∃ pre m post, (on_data_received cb st r).2 =
            pre ++ Event.resetIndex :: Event.deliver m :: post
          ∧ Event.clearData ∈ post) := by
  intro cb st r hpos
  obtain ⟨d, pre0, hshape⟩ : ∃ d pre0, on_data_received cb st r =
      completeOrAdvance { st with data := d } cb (Event.cancelTimer :: pre0) := by
    by_cases hop : bytes_to_int r 1 1 = READ_SUCCESS ∨ bytes_to_int r 1 1 = READ_ERROR
    · exact ⟨(odr_parse_step st r).1, (odr_parse_step st r).2, on_data_received_op cb st r hop⟩
    · exact ⟨st.data, [Event.unknownOp], on_data_received_unknown cb st r hop⟩
  rw [hshape]
  by_cases hlast : st.sections.length - 1 ≤ st.sectionIndex
  · rw [completeOrAdvance_last { st with data := d } cb _ hlast]
    refine ⟨hpos, fun hmid => absurd hmid (by omega), fun _ => ⟨rfl, rfl, ?_⟩⟩
    refine ⟨Event.cancelTimer :: pre0,
      on_read_operation_complete_data d st.deviceAlias st.clientName,
      cbEvents cb (on_read_operation_complete_data d st.deviceAlias st.clientName) ++
        (Event.clearData :: pollEvents { st with data := d }), ?_, ?_⟩
    · simp
    · simp
  · rw [completeOrAdvance_advance { st with data := d } cb _ hlast]
    refine ⟨by dsimp only; omega, fun _ => rfl, fun hl => absurd hl (by omega)⟩

/-- Claim C10 witness: a mid-cycle handler call advances the index by one,
and a last-section call resets it to 0. -/
theorem section_index_invariant_witness :
    (on_data_received Option.none battSt r1_cellVolt).1.sectionIndex = 1
  ∧ (on_data_received Option.none { battSt with sectionIndex := 4 }
      r5_address).1.sectionIndex = 0 := by
  refine ⟨?_, ?_⟩
  · exact (section_index_invariant_amended Option.none battSt r1_cellVolt
      (by decide)).2.1 (by decide)
  · exact ((section_index_invariant_amended Option.none
      { battSt with sectionIndex := 4 } r5_address (by decide)).2.2 (by decide)).1

end Renogy
